import Mathlib

/-!
Verification development for the Reloj_2 repository.

The hub service (`hub_service/app.py`) aggregates the status of registered
robot nodes by polling, ingests a server-sent-event stream per node, and
reconciles hub-level task records against each node's execution state.
Each robot node (`robot_reloj/server_reloj.py`, `simple_pump_robot/server_pump.py`)
exposes HTTP handlers for control, task execution and execution stop.

This file gives a shallow embedding of those operations: each Python handler
or loop body becomes a Lean function over an explicit state, with the network
and the external executor/runner modelled as inputs.  The properties proved
below are stated over these embedded functions.
-/

namespace Reloj

/-! ## Node status values cached by the hub

`hub_service/app.py` stores, per robot id, the JSON dict it last computed in
`poll_robots_loop`: `{"ok": True, "data": ...}`, `{"ok": True, "raw": ...}`,
`{"ok": False, "error": ...}`, `{"ok": False, "status": code}`, or the bare
default `{"ok": False}` used when a robot has no cached entry yet. -/

inductive NodeStatus where
  | okData (data : String)
  | okRaw (raw : String)
  | errExc (err : String)
  | errHttp (code : Nat)
  | okFalse
deriving DecidableEq, Repr

/-- The `"ok"` field of the cached status dict: whether the node is visibly online. -/
def NodeStatus.isOk : NodeStatus → Bool
  | .okData _ => true
  | .okRaw _ => true
  | _ => false

/-- One outcome of `client.get(url)` inside the poll loop: either the request
raised an exception, or an HTTP response arrived with a status code, an
optional parsed JSON body, and the raw text. -/
inductive Observation where
  | exc (err : String)
  | resp (code : Nat) (json : Option String) (text : String)
deriving DecidableEq, Repr

/-- `poll_robots_loop` (app.py lines 171-182): turn one poll result into the
candidate status dict. -/
def statusOf : Observation → NodeStatus
  | .exc e => .errExc e
  | .resp code json text =>
      if code = 200 then
        match json with
        | some d => .okData d
        | none => .okRaw text
      else .errHttp code

/-- A registered robot node (`hub_service/models.py` `Robot`): id, display
name, endpoint and kind (the api key only affects request headers). -/
structure Robot where
  id : String
  name : String
  base_url : String
  kind : String
deriving DecidableEq, Repr

/-- The hub's `store.last_robot_status` dict, as an association list keyed by
robot id. -/
abbrev StatusMap := List (String × NodeStatus)

def smGet (m : StatusMap) (k : String) : Option NodeStatus :=
  (m.find? (fun p => p.1 = k)).map (·.2)

/-- Python dict assignment `m[k] = v`: overwrite the existing binding or append. -/
def smSet (m : StatusMap) (k : String) (v : NodeStatus) : StatusMap :=
  match m with
  | [] => [(k, v)]
  | (k', v') :: rest => if k' = k then (k, v) :: rest else (k', v') :: smSet rest k v

/-- The `robots` array of a `robots_status` broadcast: per registered robot,
its id paired with `store.last_robot_status.get(rb.id, {"ok": False})`.
(The name/base_url/kind/runtime fields do not depend on the cache and are
omitted from the snapshot payload here.) -/
abbrev Snapshot := List (String × NodeStatus)

def snapshotOf (robots : List Robot) (cache : StatusMap) : Snapshot :=
  robots.map (fun rb => (rb.id, (smGet cache rb.id).getD .okFalse))

/-- One tick of `poll_robots_loop` in `hub_service/app.py` (lines 158-198),
restricted to the robot-status part: every registered robot is polled, the
result is written unconditionally into `store.last_robot_status`, and then —
whenever at least one robot is registered — a `robots_status` snapshot is
broadcast.  Returns the new cache and the list of snapshots broadcast during
the tick. -/
def poll_robots_tick (robots : List Robot) (obs : String → Observation)
    (cache : StatusMap) : StatusMap × List Snapshot :=
  if robots.isEmpty then (cache, [])
  else
    let cache' := robots.foldl (fun c rb => smSet c rb.id (statusOf (obs rb.id))) cache
    (cache', [snapshotOf robots cache'])

/-! ## The unused debounced poll loop (`hub_service/connections.py`)

`hub_service/connections.py` contains a second implementation of the poll
loop, `_poll_robots_loop`, with per-robot success/failure streak counters
(`_ok_streak`, `_fail_streak`, lines 263-276): the cached status is replaced
by the candidate only once the streak of the candidate's polarity reaches 2,
and a snapshot is broadcast only on a tick where some cached status changed.
No module of the repository imports `connections`; the FastAPI app in
`app.py` launches its own `poll_robots_loop` instead.  The streak step is
embedded here to record what the debounce, where implemented, guarantees. -/

structure StreakState where
  okS : Nat
  failS : Nat
  visible : Option NodeStatus
deriving DecidableEq, Repr

/-- Polarity of a poll observation in `connections.py`: `ok` is set exactly
on an HTTP 200 response (lines 248-256). -/
def Observation.isOkPoll : Observation → Bool
  | .resp 200 _ _ => true
  | _ => false

/-- Per-robot body of `connections.py::_poll_robots_loop` (lines 238-276):
update the streaks and, when the relevant streak has reached 2 and the
candidate differs from the cached status, replace the cached status.
Returns the new state and whether the cached status changed. -/
def conn_poll_step (st : StreakState) (o : Observation) : StreakState × Bool :=
  let ok := o.isOkPoll
  let cand := statusOf o
  if ok then
    let okS' := min (st.okS + 1) 5
    if okS' ≥ 2 ∧ st.visible ≠ some cand then
      (⟨okS', 0, some cand⟩, true)
    else
      (⟨okS', 0, st.visible⟩, false)
  else
    let failS' := min (st.failS + 1) 5
    if failS' ≥ 2 ∧ st.visible ≠ some cand then
      (⟨0, failS', some cand⟩, true)
    else
      (⟨0, failS', st.visible⟩, false)

/-- Visible polarity of a streak state: `ok` bit of the cached status, with
an absent cache entry read as offline. -/
def StreakState.visOk (st : StreakState) : Bool :=
  (st.visible.map NodeStatus.isOk).getD false

/-! ## The hub's per-node status stream loop (`app.py::_sse_loop`)

`_sse_loop` (app.py lines 262-310) reads a long-lived SSE connection.  The
observable effect of one loop event is captured by a small-step function:
 * a completed `data:` event whose payload parses as JSON overwrites the
   cached status with `{"ok": True, "data": ...}` and broadcasts a snapshot
   containing only this robot (lines 278-295); a payload that fails to parse
   is dropped (`except: pass`);
 * `asyncio.CancelledError` breaks out of the loop (lines 306-307);
 * any other failure of the stream sleeps 1.0 s and retries (lines 308-310).
-/

inductive SseEvent where
  | dataEvent (payload : String) (parsed : Option String)
  | cancelled
  | failure (err : String)
deriving DecidableEq, Repr

structure SseStepResult where
  cache : StatusMap
  broadcasts : List Snapshot
  sleepMs : Nat
  continues : Bool
deriving DecidableEq, Repr

/-- One event of `_sse_loop` in `hub_service/app.py` for robot `rb`. -/
def sse_step (rb : Robot) (cache : StatusMap) (ev : SseEvent) : SseStepResult :=
  match ev with
  | .dataEvent _ (some js) =>
      let cache' := smSet cache rb.id (.okData js)
      ⟨cache', [snapshotOf [rb] cache'], 0, true⟩
  | .dataEvent _ none => ⟨cache, [], 0, true⟩
  | .cancelled => ⟨cache, [], 0, false⟩
  | .failure _ => ⟨cache, [], 1000, true⟩

/-! ## Hub task records and the reconciliation pass (`app.py::_poll_tasks_status`)

A hub-level task record is the dict built in `execute_custom` / `assign_task`
(app.py lines 449-459 and 493-503): id, target robot, plant linkage, action
label, params, the node-reported execution id, status and timestamps.
`_poll_tasks_status` (lines 206-236) mutates only `status` and `ended_at`. -/

structure TaskRec where
  id : String
  robot_id : Option String
  plant_era : Option String
  plant_id : Option Nat
  action : String
  params : List (String × String)
  execution_id : Option String
  status : Option String
  started_at : Option String
  ended_at : Option String
deriving DecidableEq, Repr

/-- Python truthiness of an optional string: `None` and `""` are falsy. -/
def truthyStr : Option String → Bool
  | some s => s ≠ ""
  | none => false

/-- Python `a or b` over optional strings. -/
def pyOrStr (a b : Option String) : Option String :=
  if truthyStr a then a else b

/-- Result of `GET /api/execution/{eid}` against the owning node: an
exception, or a response carrying a status code and the JSON fields the
reconciliation reads. -/
inductive RemoteExec where
  | unreachable (err : String)
  | resp (code : Nat) (st : Option String) (ended : Option String)
deriving DecidableEq, Repr

/-- Per-record body of `_poll_tasks_status` in `hub_service/app.py`
(lines 213-233): records whose status is `completed`, `stopped` or `error`
are skipped; a record without a registered robot or without an execution id
is skipped; otherwise the node is queried and `status`/`ended_at` are
updated, degrading a falsy status to `"unknown"` on a non-200 response or an
exception. -/
def reconcile_step (robots : List Robot) (remote : String → RemoteExec)
    (t : TaskRec) : TaskRec :=
  if t.status = some "completed" ∨ t.status = some "stopped" ∨ t.status = some "error" then t
  else
    let rid := (pyOrStr t.robot_id (some "")).getD ""
    match robots.find? (fun rb => rb.id = rid) with
    | none => t
    | some _ =>
      if truthyStr t.execution_id then
        match remote (t.execution_id.getD "") with
        | .resp code st ended =>
            if code = 200 then
              { t with status := pyOrStr st t.status, ended_at := pyOrStr ended t.ended_at }
            else
              { t with status := pyOrStr t.status (some "unknown") }
        | .unreachable _ => { t with status := pyOrStr t.status (some "unknown") }
      else t

/-- One full reconciliation pass (`_poll_tasks_status`): when the task list is
empty nothing happens; otherwise every record is reconciled in order, the
store is saved and a `tasks_update` broadcast is emitted.  Returns the new
task list and whether save/broadcast ran. -/
def poll_tasks_status (robots : List Robot) (remote : String → RemoteExec)
    (tasks : List TaskRec) : List TaskRec × Bool :=
  if tasks.isEmpty then (tasks, false)
  else (tasks.map (reconcile_step robots remote), true)

/-! ## Hub task dispatch (`app.py::execute_custom`, lines 471-507)

The hub forwards the payload to the node's `/api/tasks/execute`.  A response
with status code `>= 300` raises `HTTPException(res.status_code, res.text)`
before any mutation; otherwise a task record is built from the node's reply,
inserted at the head of `store.tasks`, persisted, and broadcast as
`task_added`. -/

structure HubState where
  robots : List Robot
  tasks : List TaskRec
  saveCount : Nat
deriving DecidableEq, Repr

/-- Fields of the node's JSON reply that `execute_custom` reads. -/
structure NodeReply where
  execution_id : Option String
  task_id : Option String
  status : Option String
  started_at : Option String
deriving DecidableEq, Repr

/-- The node's HTTP response: status code, raw text and parsed body. -/
structure NodeHttp where
  code : Nat
  text : String
  body : NodeReply
deriving DecidableEq, Repr

inductive HubBroadcast where
  | taskAdded (t : TaskRec)
deriving DecidableEq, Repr

/-- `fastapi.HTTPException(status_code, detail)`. -/
structure HttpEx where
  code : Nat
  detail : String
deriving DecidableEq, Repr

/-- `execute_custom` in `hub_service/app.py` (lines 471-507).  `nowMs` is
`int(datetime.utcnow().timestamp()*1000)` and `nowIso` the matching ISO
timestamp; `node` is the robot's response to the forwarded POST. -/
def execute_custom (st : HubState) (robot_id : String)
    (taskParams : List (String × String)) (node : Robot → NodeHttp)
    (nowMs : Nat) (nowIso : String) :
    HubState × List HubBroadcast × Except HttpEx TaskRec :=
  match st.robots.find? (fun rb => rb.id = robot_id) with
  | none => (st, [], .error ⟨404, "robot not found"⟩)
  | some rb =>
      let res := node rb
      if res.code ≥ 300 then (st, [], .error ⟨res.code, res.text⟩)
      else
        let rec_ : TaskRec :=
          { id := "t_" ++ toString nowMs
            robot_id := some rb.id
            plant_era := none
            plant_id := none
            action := "custom"
            params := taskParams
            execution_id := pyOrStr res.body.execution_id res.body.task_id
            status := pyOrStr res.body.status (some "executing")
            started_at := pyOrStr res.body.started_at (some nowIso)
            ended_at := none }
        ({ st with tasks := rec_ :: st.tasks, saveCount := st.saveCount + 1 },
         [.taskAdded rec_], .ok rec_)

/-! ## The reloj node (`robot_reloj/server_reloj.py`)

The handlers below are embedded as functions of the pieces of server state
they read: the serial/virtual environment, the protocol catalogue, and the
runner/executor, the last two of which live outside the handlers and enter
as inputs. -/

/-- The parts of `robot_env` read by `_is_serial_connected`: the virtual
flag, the configured port string, and whether a serial handle exists and is
open (`ser and ser.is_open`). -/
structure RobotEnvState where
  is_virtual : Bool
  port : String
  ser_open : Bool
deriving DecidableEq, Repr

/-- Python `s.strip().upper()` over the underlying characters: drop leading
and trailing whitespace, then upper-case (ASCII semantics). -/
def stripUpper (s : String) : String :=
  ⟨(((s.data.dropWhile Char.isWhitespace).reverse.dropWhile
      Char.isWhitespace).reverse).map Char.toUpper⟩

/-- `_is_serial_connected` in `robot_reloj/server_reloj.py` (lines 1113-1124):
true when the environment is virtual, when the stripped upper-cased port is
`"VIRTUAL"`, or when the serial handle is open. -/
def is_serial_connected (e : RobotEnvState) : Bool :=
  e.is_virtual || stripUpper e.port = "VIRTUAL" || e.ser_open

/-- Response of a reloj HTTP handler, reduced to the status code and a tag
distinguishing the JSON error families the handlers emit. -/
structure NodeResponse where
  code : Nat
  tag : String
deriving DecidableEq, Repr

/-- `api_control` in `robot_reloj/server_reloj.py` (lines 1274-1293): reject
with 409 and `robot_connection: "disconnected"` before touching the
environment when the serial link is not connected; otherwise apply the
payload (`apply_control_payload`), answering 500 if that raises.  The
returned Bool records whether the command reached the environment. -/
def api_control (e : RobotEnvState) (applyRaises : Bool) : NodeResponse × Bool :=
  if !is_serial_connected e then (⟨409, "disconnected"⟩, false)
  else if applyRaises then (⟨500, "error"⟩, true)
  else (⟨200, "ok"⟩, true)

/-- Inputs of `api_execute_task_v2` that decide its control flow: the
environment, the protocol catalogue (`Protocolo.existe`), and whether
`protocol_runner.status().activo` is truthy (an exception while querying the
runner counts as inactive, lines 1883-1887). -/
structure ExecEnv where
  env : RobotEnvState
  protocol_exists : String → Bool
  runner_active : Bool

/-- The request fields of `POST /api/tasks/execute` that decide acceptance. -/
structure ExecRequest where
  protocol_name : Option String
  mode : String
deriving DecidableEq, Repr

/-- Outcome of `api_execute_task_v2`: one of its rejection responses, or an
execution handed to the task executor (sync or async). -/
inductive ExecOutcome where
  | disconnected409
  | badRequest400
  | notFound404 (proto : String)
  | conflict409
  | startedSync
  | startedAsync
deriving DecidableEq, Repr

/-- Whether the outcome invoked `task_executor.execute_task`. -/
def ExecOutcome.started : ExecOutcome → Bool
  | .startedSync => true
  | .startedAsync => true
  | _ => false

/-- HTTP status code of each outcome (both started modes answer 200). -/
def ExecOutcome.httpCode : ExecOutcome → Nat
  | .disconnected409 => 409
  | .badRequest400 => 400
  | .notFound404 _ => 404
  | .conflict409 => 409
  | .startedSync => 200
  | .startedAsync => 200

/-- `api_execute_task_v2` in `robot_reloj/server_reloj.py` (lines 1778-1960),
reduced to its decision structure (the parameter normalisation between the
guards does not alter which branch is taken): reject 409 when the serial
link is disconnected (lines 1783-1789); reject 400 when `protocol_name` is
falsy (lines 1795-1797); reject 404 when the protocol is unknown
(lines 1799-1801); reject 409 when the runner reports an active execution
(lines 1880-1893); otherwise execute in the requested mode. -/
def api_execute_task_v2 (s : ExecEnv) (req : ExecRequest) : ExecOutcome :=
  if !is_serial_connected s.env then .disconnected409
  else
    match req.protocol_name with
    | none => .badRequest400
    | some pn =>
      if pn = "" then .badRequest400
      else if !s.protocol_exists pn then .notFound404 pn
      else if s.runner_active then .conflict409
      else if req.mode = "sync" then .startedSync
      else .startedAsync

/-- Effects of `api_execution_stop`: the HTTP code, the `status` field of the
JSON body, whether `protocol_runner.stop()` was called, and whether the local
tracker was finalised via `_track_exec_end`. -/
structure StopEffects where
  code : Nat
  body_status : String
  runner_stop_called : Bool
  tracker_finalised : Bool
deriving DecidableEq, Repr

/-- `api_execution_stop` in `robot_reloj/server_reloj.py` (lines 2035-2050):
the reserved id `"protocolo_activo"` stops the runner; any other id is passed
to `task_executor.stop_task` and — whether or not that reports success — the
local tracker is finalised and the handler answers 200 with
`{"status": "stopped"}`.  `stopTask` is the executor's (non-raising,
idempotent) stop outcome per execution id. -/
def api_execution_stop (stopTask : String → Bool) (execution_id : String) : StopEffects :=
  if execution_id = "protocolo_activo" then ⟨200, "stopped", true, false⟩
  else if stopTask execution_id then ⟨200, "stopped", false, true⟩
  else ⟨200, "stopped", false, true⟩

/-! ## Daily schedule recomputation (pump node)

`simple_pump_robot/server_pump.py` builds daily schedules through
`create_daily_schedule` from the `task_scheduler` module, which is not part
of the sources available here. -/

/-- Modelled from the spec: the `task_scheduler` module backing
`create_daily_schedule` and the scheduler loop's recomputation of
`next_execution` is absent from the sources; §4.5 specifies
"`daily`: next_execution = today at hour:minute; if that has already passed,
roll to tomorrow at hour:minute".  Time is seconds since an epoch aligned to
midnight; `now - now % 86400` is today's midnight. -/
def daily_next_execution (now : Nat) (hour minute : Nat) : Nat :=
  let today := now - now % 86400 + hour * 3600 + minute * 60
  if today ≤ now then today + 86400 else today

/-! ## Supporting lemmas about the debounced (unused) poll loop -/

/-- In `connections.py`'s `_poll_robots_loop`, a single observation whose
polarity streak is still zero — i.e. the previous observation, if any, had
the opposite polarity — never changes the cached status: the new streak is 1,
below the threshold of 2. -/
theorem conn_single_observation_no_flip (st : StreakState) (o : Observation)
    (h : (if o.isOkPoll then st.okS else st.failS) = 0) :
    (conn_poll_step st o).1.visible = st.visible := by
  by_cases hok : o.isOkPoll
  · rw [hok] at h
    simp at h
    simp [conn_poll_step, hok, h]
  · simp only [Bool.not_eq_true] at hok
    rw [hok] at h
    simp at h
    simp [conn_poll_step, hok, h]

/-! ## Claims -/

/-- C1: the claim states that a node's externally visible cached status flips
between online and offline only after at least 2 consecutive consistent poll
observations.  The hub the repository actually serves (`poll_robots_loop` in
`hub_service/app.py`) has no streak counters: it overwrites
`store.last_robot_status` on every observation, so a single successful poll
flips a visibly offline node to online immediately.  The third conjunct shows
the repository's own debounced implementation of the same loop
(`hub_service/connections.py`, imported by nothing) keeps the node offline on
that very input, matching the claim. -/
theorem c1_single_success_flips_status :
    ((smGet [("r1", NodeStatus.errExc "down")] "r1").map NodeStatus.isOk = some false) ∧
    ((smGet (poll_robots_tick [⟨"r1", "Reloj", "http://localhost:5005", "reloj"⟩]
        (fun _ => .resp 200 (some "st") "st") [("r1", NodeStatus.errExc "down")]).1 "r1").map
        NodeStatus.isOk = some true) ∧
    ((conn_poll_step ⟨0, 5, some (NodeStatus.errExc "down")⟩
        (.resp 200 (some "st") "st")).1.visOk = false) := by
  decide

/-- C2: whenever the Protocol Runner reports an active execution, a
well-formed `POST /api/tasks/execute` on the reloj node (serial connected,
protocol name present and known) is rejected with HTTP 409 and no execution
is handed to the task executor. -/
theorem c2_runner_active_rejected_conflict (s : ExecEnv) (req : ExecRequest) (pn : String)
    (hconn : is_serial_connected s.env = true)
    (hpn : req.protocol_name = some pn) (hpn' : pn ≠ "")
    (hex : s.protocol_exists pn = true)
    (hact : s.runner_active = true) :
    api_execute_task_v2 s req = .conflict409 ∧
    (api_execute_task_v2 s req).httpCode = 409 ∧
    (api_execute_task_v2 s req).started = false := by
  have hmain : api_execute_task_v2 s req = .conflict409 := by
    simp [api_execute_task_v2, hconn, hpn, hpn', hex, hact]
  exact ⟨hmain, by rw [hmain]; rfl, by rw [hmain]; rfl⟩

/-- Witness for C2 at a concrete input: virtual environment (serial counts as
connected), existing protocol `regar`, runner active. -/
theorem c2_witness :
    api_execute_task_v2 ⟨⟨true, "COM3", false⟩, fun _ => true, true⟩ ⟨some "regar", "async"⟩ =
      .conflict409 ∧
    (api_execute_task_v2 ⟨⟨true, "COM3", false⟩, fun _ => true, true⟩
      ⟨some "regar", "async"⟩).httpCode = 409 ∧
    (api_execute_task_v2 ⟨⟨true, "COM3", false⟩, fun _ => true, true⟩
      ⟨some "regar", "async"⟩).started = false :=
  c2_runner_active_rejected_conflict _ _ "regar" rfl rfl (by decide) rfl rfl

/-- C3 counterexample: the claim counts `timeout` among the terminal statuses
skipped by reconciliation, but `_poll_tasks_status` in `hub_service/app.py`
skips only `completed`, `stopped` and `error` (line 214).  A record whose
status is `timeout` is polled again, and a remote reply of `running` drags it
back to a non-terminal status. -/
theorem c3_counterexample_timeout_overwritten :
    (reconcile_step [⟨"r1", "Reloj", "http://localhost:5005", "reloj"⟩]
      (fun _ => .resp 200 (some "running") none)
      { id := "t_1", robot_id := some "r1", plant_era := none, plant_id := none,
        action := "custom", params := [], execution_id := some "e1",
        status := some "timeout", started_at := some "s0", ended_at := some "e0" }).status =
      some "running" := by
  decide

/-- C3 (amended): for every TaskRecord whose status is `completed`, `stopped`
or `error`, a reconciliation pass leaves the record untouched — such records
are skipped by the loop.  (Records with status `timeout` are not skipped.) -/
theorem c3_terminal_records_skipped (robots : List Robot)
    (remote : String → RemoteExec) (t : TaskRec)
    (h : t.status = some "completed" ∨ t.status = some "stopped" ∨ t.status = some "error") :
    reconcile_step robots remote t = t := by
  unfold reconcile_step
  rw [if_pos h]

/-- Witness for the amended C3 at a concrete stopped record. -/
theorem c3_witness :
    reconcile_step [] (fun _ => .unreachable "down")
      { id := "t_2", robot_id := some "r1", plant_era := none, plant_id := none,
        action := "custom", params := [], execution_id := some "e2",
        status := some "stopped", started_at := some "s0", ended_at := some "e0" } =
      { id := "t_2", robot_id := some "r1", plant_era := none, plant_id := none,
        action := "custom", params := [], execution_id := some "e2",
        status := some "stopped", started_at := some "s0", ended_at := some "e0" } :=
  c3_terminal_records_skipped _ _ _ (Or.inr (Or.inl rfl))

/-- C4: immediately after recomputation, a daily schedule's next execution is
strictly in the future and at most 24 hours away. -/
theorem c4_daily_next_in_window (now hour minute : Nat)
    (hh : hour < 24) (hm : minute < 60) :
    now < daily_next_execution now hour minute ∧
    daily_next_execution now hour minute ≤ now + 86400 := by
  have h1 : now % 86400 ≤ now := Nat.mod_le _ _
  have h2 : now % 86400 < 86400 := Nat.mod_lt _ (by norm_num)
  simp only [daily_next_execution]
  split <;> omega

/-- Witness for C4: now = 50000 s (13:53 UTC), schedule at 08:00 — the
computed time has passed, so it rolls to tomorrow. -/
theorem c4_witness :
    50000 < daily_next_execution 50000 8 0 ∧
    daily_next_execution 50000 8 0 ≤ 50000 + 86400 :=
  c4_daily_next_in_window 50000 8 0 (by norm_num) (by norm_num)

/-- C5: the claim states a snapshot is broadcast if and only if some node's
visible status changed on that tick.  The poll loop the hub actually runs
(`poll_robots_loop` in `hub_service/app.py`) broadcasts unconditionally on
every tick with at least one registered robot: below, the new cache equals
the old one — nothing changed — yet one broadcast is still emitted. -/
theorem c5_unchanged_tick_still_broadcasts :
    (poll_robots_tick [⟨"r1", "Reloj", "http://localhost:5005", "reloj"⟩]
      (fun _ => .resp 200 (some "st") "st") [("r1", NodeStatus.okData "st")]).1 =
      [("r1", NodeStatus.okData "st")] ∧
    (poll_robots_tick [⟨"r1", "Reloj", "http://localhost:5005", "reloj"⟩]
      (fun _ => .resp 200 (some "st") "st") [("r1", NodeStatus.okData "st")]).2.length = 1 := by
  decide

/-- C6: when the node answers a dispatched task with a non-success response
(status code ≥ 300), `execute_custom` surfaces exactly that status code and
body text to the caller and leaves the hub state untouched: no TaskRecord,
no persistence, no broadcast. -/
theorem c6_error_surfaced_no_record (st : HubState) (rid : String)
    (ps : List (String × String)) (node : Robot → NodeHttp)
    (nowMs : Nat) (nowIso : String) (rb : Robot)
    (hfind : st.robots.find? (fun r => r.id = rid) = some rb)
    (hcode : 300 ≤ (node rb).code) :
    execute_custom st rid ps node nowMs nowIso =
      (st, [], .error ⟨(node rb).code, (node rb).text⟩) := by
  unfold execute_custom
  rw [hfind]
  simp only [ge_iff_le, hcode, if_true]

/-- Witness for C6: the node answers 409 Conflict; the hub returns that very
error and its state (robots, tasks, save counter) is unchanged. -/
theorem c6_witness :
    execute_custom ⟨[⟨"r1", "Reloj", "http://localhost:5005", "reloj"⟩], [], 0⟩ "r1" []
      (fun _ => ⟨409, "Ya hay una ejecucion en curso", ⟨none, none, none, none⟩⟩) 17 "iso" =
      (⟨[⟨"r1", "Reloj", "http://localhost:5005", "reloj"⟩], [], 0⟩, [],
       .error ⟨409, "Ya hay una ejecucion en curso"⟩) :=
  c6_error_surfaced_no_record _ _ _ _ _ _ ⟨"r1", "Reloj", "http://localhost:5005", "reloj"⟩
    (by decide) (by norm_num)

/-- C7 counterexample: the claim states that on a stream failure the hub
marks the node's cached status offline and broadcasts the updated snapshot.
In `_sse_loop` of `hub_service/app.py` the failure handler does neither: at
the concrete input below the cached status is still online after the failure
and no broadcast is emitted. -/
theorem c7_counterexample_no_offline_mark :
    ¬ (((smGet (sse_step ⟨"r1", "Reloj", "http://localhost:5005", "reloj"⟩
          [("r1", NodeStatus.okData "st")] (.failure "boom")).cache "r1").map
          NodeStatus.isOk = some false) ∧
       (sse_step ⟨"r1", "Reloj", "http://localhost:5005", "reloj"⟩
          [("r1", NodeStatus.okData "st")] (.failure "boom")).broadcasts ≠ []) := by
  decide

/-- C7 (amended): whenever a node's status stream fails, the hub leaves that
node's cached status unchanged and emits no broadcast; it retries the stream
connection after a fixed 1-second backoff, staying in the loop. -/
theorem c7_stream_failure_retries_unchanged (rb : Robot) (cache : StatusMap) (err : String) :
    sse_step rb cache (.failure err) = ⟨cache, [], 1000, true⟩ :=
  rfl

/-- C8: when the serial link is not connected and the environment is not
virtual, `POST /api/control` and `POST /api/tasks/execute` are both rejected
with a distinct 409 disconnected error, no control command reaches the
environment, and no execution is started. -/
theorem c8_disconnected_rejects_control_and_execute (e : RobotEnvState)
    (applyRaises : Bool) (pex : String → Bool) (ra : Bool) (req : ExecRequest)
    (hv : e.is_virtual = false) (hp : stripUpper e.port ≠ "VIRTUAL")
    (hs : e.ser_open = false) :
    api_control e applyRaises = (⟨409, "disconnected"⟩, false) ∧
    api_execute_task_v2 ⟨e, pex, ra⟩ req = .disconnected409 ∧
    (api_execute_task_v2 ⟨e, pex, ra⟩ req).started = false := by
  have hc : is_serial_connected e = false := by
    simp [is_serial_connected, hv, hs, hp]
  have h2 : api_execute_task_v2 ⟨e, pex, ra⟩ req = .disconnected409 := by
    simp [api_execute_task_v2, hc]
  exact ⟨by simp [api_control, hc], h2, by rw [h2]; rfl⟩

/-- Witness for C8: hardware profile, port `COM3`, serial handle closed. -/
theorem c8_witness :
    api_control ⟨false, "COM3", false⟩ false = (⟨409, "disconnected"⟩, false) ∧
    api_execute_task_v2 ⟨⟨false, "COM3", false⟩, fun _ => true, false⟩
      ⟨some "regar", "sync"⟩ = .disconnected409 ∧
    (api_execute_task_v2 ⟨⟨false, "COM3", false⟩, fun _ => true, false⟩
      ⟨some "regar", "sync"⟩).started = false :=
  c8_disconnected_rejects_control_and_execute ⟨false, "COM3", false⟩ false _ false _
    rfl (by decide) rfl

/-- C9: a non-terminal TaskRecord whose owning node cannot be reached during
a reconciliation pass is returned entirely unchanged: its status is kept
(not degraded) and every other field is left as it was. -/
theorem c9_unreachable_keeps_record (robots : List Robot) (msg : String) (t : TaskRec)
    (h : t.status = some "queued" ∨ t.status = some "running") :
    reconcile_step robots (fun _ => .unreachable msg) t = t := by
  have hterm : ¬(t.status = some "completed" ∨ t.status = some "stopped" ∨
      t.status = some "error") := by
    rcases h with h | h <;> simp [h]
  have hst : pyOrStr t.status (some "unknown") = t.status := by
    rcases h with h | h <;> simp [pyOrStr, truthyStr, h]
  unfold reconcile_step
  rw [if_neg hterm]
  cases hfind : List.find? (fun rb => rb.id = (pyOrStr t.robot_id (some "")).getD "") robots with
  | none => simp [hfind]
  | some rb =>
      by_cases he : truthyStr t.execution_id
      · simp [hfind, he, hst]
      · simp [hfind, he]

/-- Witness for C9: a running record whose node is unreachable survives the
pass byte-for-byte. -/
theorem c9_witness :
    reconcile_step [⟨"r1", "Reloj", "http://localhost:5005", "reloj"⟩]
      (fun _ => .unreachable "ConnectError")
      { id := "t_3", robot_id := some "r1", plant_era := none, plant_id := none,
        action := "custom", params := [], execution_id := some "e3",
        status := some "running", started_at := some "s0", ended_at := none } =
      { id := "t_3", robot_id := some "r1", plant_era := none, plant_id := none,
        action := "custom", params := [], execution_id := some "e3",
        status := some "running", started_at := some "s0", ended_at := none } :=
  c9_unreachable_keeps_record _ _ _ (Or.inr rfl)

/-- C10: for every execution id other than the reserved `protocolo_activo`,
`POST /api/execution/{id}/stop` on the reloj node answers HTTP 200 with
`{"status": "stopped"}` regardless of whether the executor found the
execution — an unknown or already-finished id never yields a NotFound. -/
theorem c10_stop_always_stopped (stopTask : String → Bool) (execution_id : String)
    (h : execution_id ≠ "protocolo_activo") :
    (api_execution_stop stopTask execution_id).code = 200 ∧
    (api_execution_stop stopTask execution_id).body_status = "stopped" := by
  unfold api_execution_stop
  rw [if_neg h]
  by_cases hs : stopTask execution_id <;> simp [hs]

/-- Witness for C10: an id the executor does not know (its stop reports
failure) still gets 200 / stopped. -/
theorem c10_witness :
    (api_execution_stop (fun _ => false) "exec_nonexistent").code = 200 ∧
    (api_execution_stop (fun _ => false) "exec_nonexistent").body_status = "stopped" :=
  c10_stop_always_stopped (fun _ => false) "exec_nonexistent" (by decide)

end Reloj
